import Mathlib

/-!
Verification of the chatsapp session/room coordinator.

The repository contains two server variants sharing one protocol:
a multi-room variant (src/backend/server.js) and a persistence variant
(the second server in src/server.js, with bcrypt passwords, default rooms
and JSON snapshots).  Both are embedded below as pure state-transition
functions returning the new state together with the list of emitted
events, translated handler by handler from the source.
-/

namespace ChatsApp

/-- JS String.prototype.trim on a Lean string: drop whitespace from both ends. -/
def jsTrim (s : String) : String :=
  ⟨((s.data.dropWhile Char.isWhitespace).reverse.dropWhile Char.isWhitespace).reverse⟩

/-- JS String.prototype.slice(0, n). -/
def jsSlice (s : String) (n : Nat) : String := ⟨s.data.take n⟩

/-- JS Array.prototype.slice(-n): the last n elements (the whole list when shorter). -/
def sliceLast {α : Type} (n : Nat) (l : List α) : List α := l.drop (l.length - n)

/-- Lookup in a JS Map / plain object modelled as an association list. -/
def lookupA {α : Type} (k : String) : List (String × α) → Option α
  | [] => none
  | p :: t => if p.1 = k then some p.2 else lookupA k t

/-- Map.set / property assignment: replace in place or append a new entry. -/
def setA {α : Type} (k : String) (v : α) : List (String × α) → List (String × α)
  | [] => [(k, v)]
  | p :: t => if p.1 = k then (k, v) :: t else p :: setA k v t

/-- Map.delete / delete obj[k]: drop the entry with the given key. -/
def eraseA {α : Type} (k : String) (l : List (String × α)) : List (String × α) :=
  l.filter (fun p => p.1 ≠ k)

/-- JS Set.add, preserving insertion order. -/
def addS (x : String) (l : List String) : List String :=
  if x ∈ l then l else l ++ [x]

/-- JS Set.delete. -/
def delS (x : String) (l : List String) : List String :=
  l.filter (fun y => y ≠ x)

/-- JS array.splice(array.indexOf(x), 1): remove the first occurrence. -/
def eraseFirst (x : String) : List String → List String
  | [] => []
  | y :: t => if y = x then t else y :: eraseFirst x t

/--
The numeric message id Date.now() + Math.random() of the persistence
variant, scaled by 2 ^ 53 so it lives in Nat: Math.random() returns
k / 2 ^ 53 with k < 2 ^ 53, and the scaling is strictly monotone, so the
order of ids is preserved exactly.
-/
def jsId (now k : Nat) : Nat := now * 2 ^ 53 + k

/-! ## The multi-room variant, src/backend/server.js -/

namespace Backend

/-- A chat message as built by the send_message handler (the time ISO string
is a rendering of serverTime and is not modelled separately). -/
structure Message where
  id : String
  user : String
  userId : String
  message : String
  room : String
  serverTime : Nat
deriving DecidableEq, Repr

/-- A registered user: username, the set of joined rooms (insertion order),
and the lastActivity timestamp.  The source record also repeats the socket
id (the map key) and a connectedAt ISO string, both omitted here. -/
structure User where
  username : String
  rooms : List String
  lastActivity : Nat
deriving DecidableEq, Repr

/-- A room: display name, member socket ids (a JS Set) and the message log. -/
structure Room where
  name : String
  users : List String
  messages : List Message
deriving DecidableEq, Repr

/-- Events the backend handlers emit to sockets. -/
inductive Event where
  | errorMsg (message : String)
  | userRegistered (userId username : String)
  | roomsList (l : List (String × Nat × Nat))
  | roomHistory (room : String) (messages : List Message) (userCount : Nat)
  | userJoined (room user userId : String) (userCount : Nat)
  | userLeft (room user userId : String) (userCount : Nat)
  | receiveMessage (m : Message)
deriving DecidableEq, Repr

/-- The two global registries of src/backend/server.js. -/
structure State where
  users : List (String × User)
  rooms : List (String × Room)
deriving DecidableEq, Repr

/-- The rooms_list payload: name, userCount, messageCount per room. -/
def roomSummaries (rooms : List (String × Room)) : List (String × Nat × Nat) :=
  rooms.map (fun p => (p.2.name, p.2.users.length, p.2.messages.length))

/-- The register_user handler: overwrites the user record for this socket
with a fresh one (empty rooms set); falls back to a generated name. -/
def register_user (s : State) (now : Nat) (socketId username : String) :
    State × List Event :=
  let safeUsername := jsTrim (if username = "" then "User_" ++ jsSlice socketId 6 else username)
  let userData : User := { username := safeUsername, rooms := [], lastActivity := now }
  let s' : State := { s with users := setA socketId userData s.users }
  (s', [.userRegistered socketId safeUsername, .roomsList (roomSummaries s'.rooms)])

/-- The join_room handler: validates the name, requires registration,
creates the room if absent, adds the socket to the room and the room to the
user, and emits the last-100 history plus a user_joined notification. -/
def join_room (s : State) (now : Nat) (socketId roomName : String) :
    State × List Event :=
  if jsTrim roomName = "" then
    (s, [.errorMsg "Valid room name is required"])
  else
    let room := jsTrim roomName
    match lookupA socketId s.users with
    | none => (s, [.errorMsg "Please register first"])
    | some user =>
      let roomData := (lookupA room s.rooms).getD { name := room, users := [], messages := [] }
      let roomData' := { roomData with users := addS socketId roomData.users }
      let user' := { user with rooms := addS room user.rooms, lastActivity := now }
      ({ users := setA socketId user' s.users, rooms := setA room roomData' s.rooms },
       [.roomHistory room (sliceLast 100 roomData'.messages) roomData'.users.length,
        .userJoined room user.username socketId roomData'.users.length])

/-- Push a message and apply the eviction policy of lines 278-281: once the
log exceeds 1000 entries it is trimmed to the most recent 500. -/
def pushEvict (log : List Message) (m : Message) : List Message :=
  let l := log ++ [m]
  if l.length > 1000 then sliceLast 500 l else l

/-- The message body built by send_message; rand is the random base-36
suffix of the id. -/
def mkMessage (now : Nat) (rand username socketId trimmed room : String) : Message :=
  { id := toString now ++ "-" ++ rand, user := username, userId := socketId,
    message := trimmed, room := room, serverTime := now }

/-- The send_message handler: argument validation, then registration, room
existence and membership checks in that order; a message that trims to the
empty string is silently dropped; otherwise append with eviction and
broadcast. -/
def send_message (s : State) (now : Nat) (rand : String) (socketId room message : String) :
    State × List Event :=
  if room = "" ∨ message = "" then
    (s, [.errorMsg "Room and valid message are required"])
  else
    match lookupA socketId s.users with
    | none => (s, [.errorMsg "Please register first"])
    | some user =>
      match lookupA room s.rooms with
      | none => (s, [.errorMsg "Room does not exist"])
      | some roomData =>
        if socketId ∈ roomData.users then
          let trimmed := jsTrim message
          if trimmed = "" then (s, [])
          else
            let messageData := mkMessage now rand user.username socketId trimmed room
            let roomData' := { roomData with messages := pushEvict roomData.messages messageData }
            let user' := { user with lastActivity := now }
            ({ users := setA socketId user' s.users, rooms := setA room roomData' s.rooms },
             [.receiveMessage messageData])
        else (s, [.errorMsg "You are not in this room"])

/-- The leave_room handler. -/
def leave_room (s : State) (socketId roomName : String) : State × List Event :=
  match lookupA roomName s.rooms, lookupA socketId s.users with
  | some room, some user =>
    let room' := { room with users := delS socketId room.users }
    let user' := { user with rooms := delS roomName user.rooms }
    ({ users := setA socketId user' s.users, rooms := setA roomName room' s.rooms },
     [.userLeft roomName user.username socketId room'.users.length])
  | _, _ => (s, [])

/-- One iteration of the disconnect handler's forEach over the user's rooms:
remove the socket from the room and emit user_left with the shrunken count. -/
def disconnectStep (socketId username : String)
    (acc : List (String × Room) × List Event) (roomName : String) :
    List (String × Room) × List Event :=
  match lookupA roomName acc.1 with
  | none => acc
  | some room =>
    let room' := { room with users := delS socketId room.users }
    (setA roomName room' acc.1,
     acc.2 ++ [.userLeft roomName username socketId room'.users.length])

/-- The disconnect handler: remove the socket from every room in its rooms
set (emitting user_left per room), then delete the user record. -/
def disconnect (s : State) (socketId : String) : State × List Event :=
  match lookupA socketId s.users with
  | none => ({ s with users := eraseA socketId s.users }, [])
  | some user =>
    let res := user.rooms.foldl (disconnectStep socketId user.username) (s.rooms, [])
    ({ users := eraseA socketId s.users, rooms := res.1 }, res.2)

end Backend

/-! ## The persistence variant: the second server of src/server.js -/

namespace Persist

/-- A message as built by the message handler (id is the scaled
Date.now() + Math.random(); the time locale string renders timestamp and is
not modelled separately; kindTag is the source's type field, renamed because
type is reserved in Lean). -/
structure PMessage where
  id : Nat
  username : String
  text : String
  timestamp : Nat
  kindTag : String
deriving DecidableEq, Repr

/-- A room of the persistence variant: metadata, the member socket-id array
and the message log.  The password field holds the bcrypt hash when the room
was created with a password that is non-empty after trimming. -/
structure PRoom where
  name : String
  password : Option String
  creator : String
  users : List String
  messages : List PMessage
deriving DecidableEq, Repr

/-- A user record, created on join: username and the single current room. -/
structure PUser where
  username : String
  currentRoom : String
deriving DecidableEq, Repr

/-- An abstract bcrypt: any hash/compare pair where compare accepts exactly
the hashed password (bcryptjs hash and compare, idealized as collision-free). -/
structure Bcrypt where
  hash : String → String
  compare : String → String → Bool
  compare_hash : ∀ p q : String, compare q (hash p) = true ↔ q = p

/-- A concrete Bcrypt instance used to evaluate theorems on closed inputs. -/
def plainBcrypt : Bcrypt where
  hash := fun p => p
  compare := fun q h => q == h
  compare_hash := by intro p q; simp

/-- Events the persistence-variant handlers emit. -/
inductive PEvent where
  | joinError (message : String)
  | createError (message : String)
  | roomJoined (roomId roomName : String) (previousMessages : List PMessage)
  | userJoinedEv (username roomId : String)
  | userLeftEv (username roomId : String)
  | roomUpdate (roomId : String) (userCount : Nat) (hasPassword : Option Bool)
  | newRoom (id name : String) (userCount : Nat) (hasPassword : Bool) (creator : String)
  | autoJoin (roomId roomName : String)
  | messageEv (m : PMessage)
deriving DecidableEq, Repr

/-- The global rooms object and users object of the persistence variant. -/
structure PState where
  users : List (String × PUser)
  rooms : List (String × PRoom)
deriving DecidableEq, Repr

/-- The three default public rooms declared at the top of the file. -/
def defaultRooms : List (String × PRoom) :=
  [("general", { name := "General Chat", password := none, creator := "system",
                 users := [], messages := [] }),
   ("random", { name := "Random Talk", password := none, creator := "system",
                users := [], messages := [] }),
   ("tech", { name := "Tech Talk", password := none, creator := "system",
              users := [], messages := [] })]

/-- The join_room handler: room existence, then the bcrypt password gate,
then leaving the current room (single-active-room policy), then joining and
emitting room_joined with the last 50 messages. -/
def join_room (B : Bcrypt) (s : PState) (socketId roomId username password : String) :
    PState × List PEvent :=
  match lookupA roomId s.rooms with
  | none => (s, [.joinError "Room does not exist"])
  | some room =>
    let passOk := match room.password with
      | some h => B.compare password h
      | none => true
    if passOk then
      let leavePrev : PState × List PEvent :=
        match lookupA socketId s.users with
        | some u =>
          match lookupA u.currentRoom s.rooms with
          | some oldR =>
            if socketId ∈ oldR.users then
              let oldR' := { oldR with users := eraseFirst socketId oldR.users }
              ({ s with rooms := setA u.currentRoom oldR' s.rooms },
               [.userLeftEv u.username u.currentRoom,
                .roomUpdate u.currentRoom oldR'.users.length none])
            else (s, [])
          | none => (s, [])
        | none => (s, [])
      let s₁ := leavePrev.1
      let roomNow := (lookupA roomId s₁.rooms).getD room
      let roomNow' := { roomNow with users := roomNow.users ++ [socketId] }
      let s₂ : PState :=
        { users := setA socketId { username := username, currentRoom := roomId } s₁.users,
          rooms := setA roomId roomNow' s₁.rooms }
      (s₂, leavePrev.2 ++
        [.roomJoined roomId roomNow.name (sliceLast 50 roomNow.messages),
         .userJoinedEv username roomId,
         .roomUpdate roomId roomNow'.users.length (some roomNow'.password.isSome)])
    else (s, [.joinError "Incorrect password"])

/-- The create_room handler: duplicate ids are rejected; a password that is
non-empty after trimming is stored as its bcrypt hash, otherwise the room is
public. -/
def create_room (B : Bcrypt) (s : PState) (roomId roomName password creator : String) :
    PState × List PEvent :=
  match lookupA roomId s.rooms with
  | some _ => (s, [.createError "Room already exists"])
  | none =>
    let hashedPassword := if jsTrim password ≠ "" then some (B.hash (jsTrim password)) else none
    let newR : PRoom := { name := roomName, password := hashedPassword, creator := creator,
                          users := [], messages := [] }
    ({ s with rooms := setA roomId newR s.rooms },
     [.newRoom roomId roomName 0 hashedPassword.isSome creator,
      .autoJoin roomId roomName])

/-- The message handler: silently ignores the event unless the room exists
and the socket has a user record, then appends the text unconditionally (no
trim, no length cap) and broadcasts it.  now and k give the id
Date.now() + Math.random() in scaled form. -/
def message (s : PState) (now k : Nat) (socketId roomId text : String) :
    PState × List PEvent :=
  match lookupA roomId s.rooms, lookupA socketId s.users with
  | some room, some user =>
    let messageData : PMessage :=
      { id := jsId now k, username := user.username, text := text,
        timestamp := now, kindTag := "text" }
    ({ s with rooms := setA roomId { room with messages := room.messages ++ [messageData] } s.rooms },
     [.messageEv messageData])
  | _, _ => (s, [])

/-- The disconnect handler: remove the socket from its current room (first
occurrence), emit user_left and room_update, and delete the user record. -/
def disconnect (s : PState) (socketId : String) : PState × List PEvent :=
  match lookupA socketId s.users with
  | none => (s, [])
  | some user =>
    match lookupA user.currentRoom s.rooms with
    | some room =>
      if socketId ∈ room.users then
        let room' := { room with users := eraseFirst socketId room.users }
        ({ users := eraseA socketId s.users,
           rooms := setA user.currentRoom room' s.rooms },
         [.userLeftEv user.username user.currentRoom,
          .roomUpdate user.currentRoom room'.users.length (some room'.password.isSome)])
      else ({ s with users := eraseA socketId s.users }, [])
    | none => ({ s with users := eraseA socketId s.users }, [])

/-- What saveData writes into rooms.json for one room: metadata only, with
users and messages emptied. -/
def savedRoomOf (r : PRoom) : PRoom :=
  { name := r.name, password := r.password, creator := r.creator, users := [], messages := [] }

/-- The rooms.json document saveData writes: every room's metadata. -/
def saveDataRooms (rooms : List (String × PRoom)) : List (String × PRoom) :=
  rooms.map (fun p => (p.1, savedRoomOf p.2))

/-- The messages.json document saveData writes: the last 100 messages per room. -/
def saveDataMessages (rooms : List (String × PRoom)) : List (String × List PMessage) :=
  rooms.map (fun p => (p.1, sliceLast 100 p.2.messages))

/-- The first merge loop of loadData: copy saved histories into the rooms
that already exist (the defaults). -/
def mergeMessages (rooms : List (String × PRoom))
    (saved : List (String × List PMessage)) : List (String × PRoom) :=
  saved.foldl
    (fun acc p =>
      match lookupA p.1 acc with
      | some r => setA p.1 { r with messages := p.2 } acc
      | none => acc)
    rooms

/-- The second loop of loadData: every saved room object replaces or extends
the in-memory room of the same id wholesale. -/
def overlayRooms (rooms saved : List (String × PRoom)) : List (String × PRoom) :=
  saved.foldl (fun acc p => setA p.1 p.2 acc) rooms

/-- loadData: the documents are parsed inside one try block, so a missing or
unparsable document (either one) lands in the catch, which keeps the default
rooms and rewrites both storage documents as empty objects (the Bool result
records that reset).  When both parse, histories are merged into the
defaults and then the saved room objects are overlaid. -/
def loadData (msgsDoc : Option (List (String × List PMessage)))
    (roomsDoc : Option (List (String × PRoom))) :
    List (String × PRoom) × Bool :=
  match msgsDoc, roomsDoc with
  | some savedMessages, some savedRooms =>
    (overlayRooms (mergeMessages defaultRooms savedMessages) savedRooms, false)
  | _, _ => (defaultRooms, true)

end Persist

/-! ## Generic lemmas about the map and set embeddings -/

theorem lookupA_setA_self {α : Type} (k : String) (v : α) (l : List (String × α)) :
    lookupA k (setA k v l) = some v := by
  induction l with
  | nil => simp [setA, lookupA]
  | cons p t ih =>
    by_cases h : p.1 = k
    · simp [setA, h, lookupA]
    · simp [setA, h, lookupA, ih]

theorem lookupA_setA_ne {α : Type} {k k' : String} (v : α) (l : List (String × α))
    (h : k' ≠ k) : lookupA k' (setA k v l) = lookupA k' l := by
  induction l with
  | nil => simp [setA, lookupA, Ne.symm h]
  | cons p t ih =>
    by_cases hp : p.1 = k
    · subst hp
      simp [setA, lookupA, Ne.symm h]
    · simp only [setA, if_neg hp, lookupA]
      by_cases hp' : p.1 = k'
      · simp [hp']
      · simp [hp', ih]

theorem eraseA_cons_self {α : Type} {k : String} {p : String × α} (t : List (String × α))
    (hp : p.1 = k) : eraseA k (p :: t) = eraseA k t := by
  simp [eraseA, hp]

theorem eraseA_cons_ne {α : Type} {k : String} {p : String × α} (t : List (String × α))
    (hp : p.1 ≠ k) : eraseA k (p :: t) = p :: eraseA k t := by
  simp [eraseA, hp]

theorem lookupA_eraseA_ne {α : Type} {k k' : String} (l : List (String × α))
    (h : k' ≠ k) : lookupA k' (eraseA k l) = lookupA k' l := by
  induction l with
  | nil => rfl
  | cons p t ih =>
    by_cases hp : p.1 = k
    · rw [eraseA_cons_self t hp, ih]
      have hpk' : ¬p.1 = k' := by rw [hp]; exact Ne.symm h
      simp [lookupA, hpk']
    · rw [eraseA_cons_ne t hp]
      by_cases hp' : p.1 = k'
      · simp [lookupA, hp']
      · simp [lookupA, hp', ih]

theorem mem_addS_self (x : String) (l : List String) : x ∈ addS x l := by
  by_cases h : x ∈ l <;> simp [addS, h]

theorem mem_addS_of_mem {y : String} (x : String) {l : List String} (h : y ∈ l) :
    y ∈ addS x l := by
  by_cases hx : x ∈ l <;> simp [addS, hx, h]

theorem sliceLast_of_le {α : Type} {n : Nat} {l : List α} (h : l.length ≤ n) :
    sliceLast n l = l := by
  simp [sliceLast, Nat.sub_eq_zero_of_le h]

theorem jsTrim_empty : jsTrim "" = "" := rfl

theorem length_sliceLast {α : Type} (n : Nat) (l : List α) :
    (sliceLast n l).length = min n l.length := by
  simp [sliceLast]
  omega

/-! ## C7: duplicate room creation -/

/-- C7: calling create_room with a room id that is already present fails
with the Room already exists error and leaves the entire state, and in
particular the existing room's metadata (name, password hash, creator) and
message log, completely unchanged. -/
theorem C7_create_room_duplicate (B : Persist.Bcrypt) (s : Persist.PState)
    (rid rn pw cr : String) (r : Persist.PRoom)
    (hr : lookupA rid s.rooms = some r) :
    Persist.create_room B s rid rn pw cr =
      (s, [.createError "Room already exists"]) := by
  simp [Persist.create_room, hr]

/-- Concrete instance of C7: recreating the gaming room fails and changes
nothing. -/
def c7Room : Persist.PRoom :=
  { name := "Gaming", password := some "h", creator := "alice",
    users := ["s1"], messages := [] }

def c7State : Persist.PState := { users := [], rooms := [("gaming", c7Room)] }

theorem C7_witness :
    Persist.create_room Persist.plainBcrypt c7State "gaming" "Gaming 2" "pw" "bob" =
      (c7State, [.createError "Room already exists"]) :=
  C7_create_room_duplicate Persist.plainBcrypt c7State "gaming" "Gaming 2" "pw" "bob"
    c7Room (by decide)

/-! ## C2: the password gate -/

/-- C2 counterexample: a room created with the non-empty password consisting
of one space is stored without a password hash (the handler hashes only a
password that is non-empty after trimming), so joining with the different
password wrong succeeds instead of failing with Incorrect password, and the
connection is added to the member set. -/
theorem C2_counterexample :
    (Persist.join_room Persist.plainBcrypt
        (Persist.create_room Persist.plainBcrypt ⟨[], []⟩ "g" "Gaming" " " "alice").1
        "s1" "g" "alice" "wrong").2 =
      [.roomJoined "g" "Gaming" [], .userJoinedEv "alice" "g",
       .roomUpdate "g" 1 (some false)] ∧
    (lookupA "g" (Persist.join_room Persist.plainBcrypt
        (Persist.create_room Persist.plainBcrypt ⟨[], []⟩ "g" "Gaming" " " "alice").1
        "s1" "g" "alice" "wrong").1.rooms).map Persist.PRoom.users = some ["s1"] := by
  constructor
  · decide
  · decide

/-- C2 amended: for a room created with a password that is non-empty after
trimming, a fresh connection joining with exactly the trimmed password
succeeds, and joining with any other password fails with Incorrect password
without adding the connection to the member set.  The trimming is the
correction: the handler hashes password.trim() at creation but compares the
untrimmed supplied password at join. -/
theorem C2_password_gate (B : Persist.Bcrypt) (s : Persist.PState)
    (sid rid rn pw cr un q : String)
    (hnew : lookupA rid s.rooms = none)
    (hpw : jsTrim pw ≠ "")
    (hfresh : lookupA sid s.users = none) :
    (q = jsTrim pw →
       (Persist.join_room B (Persist.create_room B s rid rn pw cr).1 sid rid un q).2 =
         [.roomJoined rid rn [], .userJoinedEv un rid, .roomUpdate rid 1 (some true)] ∧
       ∃ r, lookupA rid
           (Persist.join_room B (Persist.create_room B s rid rn pw cr).1 sid rid un q).1.rooms =
           some r ∧ sid ∈ r.users) ∧
    (q ≠ jsTrim pw →
       Persist.join_room B (Persist.create_room B s rid rn pw cr).1 sid rid un q =
         ((Persist.create_room B s rid rn pw cr).1, [.joinError "Incorrect password"]) ∧
       ∀ r, lookupA rid (Persist.create_room B s rid rn pw cr).1.rooms = some r →
         sid ∉ r.users) := by
  set newR : Persist.PRoom :=
    { name := rn, password := some (B.hash (jsTrim pw)), creator := cr,
      users := [], messages := [] } with hnewR
  have hcreate : Persist.create_room B s rid rn pw cr =
      ({ s with rooms := setA rid newR s.rooms },
       [.newRoom rid rn 0 true cr, .autoJoin rid rn]) := by
    simp [Persist.create_room, hnew, hpw, hnewR]
  have hlook : lookupA rid (Persist.create_room B s rid rn pw cr).1.rooms = some newR := by
    rw [hcreate]
    exact lookupA_setA_self rid newR s.rooms
  constructor
  · intro hq
    have hcmp : B.compare q (B.hash (jsTrim pw)) = true := (B.compare_hash _ _).mpr hq
    rw [hcreate]
    constructor
    · simp [Persist.join_room, lookupA_setA_self, hnewR, hcmp, hfresh, sliceLast]
    · refine ⟨{ newR with users := [sid] }, ?_, by simp⟩
      simp [Persist.join_room, lookupA_setA_self, hnewR, hcmp, hfresh]
  · intro hq
    have hcmp : B.compare q (B.hash (jsTrim pw)) = false := by
      rcases Bool.eq_false_or_eq_true (B.compare q (B.hash (jsTrim pw))) with h | h
      · exact absurd ((B.compare_hash _ _).mp h) hq
      · exact h
    constructor
    · rw [hcreate]
      simp [Persist.join_room, lookupA_setA_self, hnewR, hcmp]
    · intro r hrl
      rw [hlook] at hrl
      cases hrl
      simp [hnewR]

/-- Concrete instance of C2 as amended: both the accepting and the rejecting
direction at the password literal secret. -/
theorem C2_witness :
    ((("secret" : String) = jsTrim " secret " →
       (Persist.join_room Persist.plainBcrypt
           (Persist.create_room Persist.plainBcrypt ⟨[], []⟩ "g" "G" " secret " "a").1
           "s1" "g" "a" "secret").2 =
         [.roomJoined "g" "G" [], .userJoinedEv "a" "g", .roomUpdate "g" 1 (some true)] ∧
       ∃ r, lookupA "g"
           (Persist.join_room Persist.plainBcrypt
               (Persist.create_room Persist.plainBcrypt ⟨[], []⟩ "g" "G" " secret " "a").1
               "s1" "g" "a" "secret").1.rooms = some r ∧ "s1" ∈ r.users) ∧
     (("secret" : String) ≠ jsTrim " secret " →
       Persist.join_room Persist.plainBcrypt
           (Persist.create_room Persist.plainBcrypt ⟨[], []⟩ "g" "G" " secret " "a").1
           "s1" "g" "a" "secret" =
         ((Persist.create_room Persist.plainBcrypt ⟨[], []⟩ "g" "G" " secret " "a").1,
          [.joinError "Incorrect password"]) ∧
       ∀ r, lookupA "g"
           (Persist.create_room Persist.plainBcrypt ⟨[], []⟩ "g" "G" " secret " "a").1.rooms =
           some r → "s1" ∉ r.users)) ∧
    jsTrim " secret " = "secret" :=
  ⟨C2_password_gate Persist.plainBcrypt ⟨[], []⟩ "s1" "g" "G" " secret " "a" "a" "secret"
      (by decide) (by decide) (by decide),
   by decide⟩

/-! ## C3: disconnect cleanup -/

/-- A run of consecutive send_message calls by one socket into one room;
each input carries the text, the Date.now() value and the random id suffix. -/
def sendSeq (s : Backend.State) (sid room : String)
    (inputs : List (String × Nat × String)) : Backend.State :=
  inputs.foldl (fun st inp => (Backend.send_message st inp.2.1 inp.2.2 sid room inp.1).1) s

/-- The message a given input turns into for a fixed author and room. -/
def msgOf (un sid room : String) (inp : String × Nat × String) : Backend.Message :=
  Backend.mkMessage inp.2.1 inp.2.2 un sid (jsTrim inp.1) room

theorem send_message_success (s : Backend.State) (now : Nat)
    (rand sid room msg : String) (u : Backend.User) (r : Backend.Room)
    (hu : lookupA sid s.users = some u) (hr : lookupA room s.rooms = some r)
    (hm : sid ∈ r.users) (hroom : room ≠ "") (ht : jsTrim msg ≠ "") :
    Backend.send_message s now rand sid room msg =
      ({ users := setA sid { u with lastActivity := now } s.users,
         rooms := setA room { r with messages := (Backend.pushEvict r.messages
           (Backend.mkMessage now rand u.username sid (jsTrim msg) room)) } s.rooms },
       [.receiveMessage (Backend.mkMessage now rand u.username sid (jsTrim msg) room)]) := by
  have hmsg : msg ≠ "" := fun h => ht (h ▸ jsTrim_empty)
  simp [Backend.send_message, hroom, hmsg, hu, hr, hm, ht]

theorem sendSeq_log (sid room : String) (hroom : room ≠ "") :
    ∀ (inputs : List (String × Nat × String)) (s : Backend.State)
      (u : Backend.User) (r : Backend.Room),
      lookupA sid s.users = some u → lookupA room s.rooms = some r → sid ∈ r.users →
      (∀ i ∈ inputs, jsTrim i.1 ≠ "") →
      ∃ u' r', lookupA sid (sendSeq s sid room inputs).users = some u' ∧
        u'.username = u.username ∧
        lookupA room (sendSeq s sid room inputs).rooms = some r' ∧
        r'.users = r.users ∧
        r'.messages = (inputs.map (msgOf u.username sid room)).foldl
          Backend.pushEvict r.messages := by
  intro inputs
  induction inputs with
  | nil =>
    intro s u r hu hr hm _
    exact ⟨u, r, hu, rfl, hr, rfl, rfl⟩
  | cons i t ih =>
    intro s u r hu hr hm hv
    have hstep := send_message_success s i.2.1 i.2.2 sid room i.1 u r hu hr hm hroom
      (hv i (List.mem_cons_self _ _))
    have hseq : sendSeq s sid room (i :: t) =
        sendSeq (Backend.send_message s i.2.1 i.2.2 sid room i.1).1 sid room t := rfl
    rw [hseq, hstep]
    obtain ⟨u', r', h1, h2, h3, h4, h5⟩ :=
      ih { users := setA sid { u with lastActivity := i.2.1 } s.users,
           rooms := setA room { r with messages := (Backend.pushEvict r.messages
             (Backend.mkMessage i.2.1 i.2.2 u.username sid (jsTrim i.1) room)) } s.rooms }
        { u with lastActivity := i.2.1 }
        { r with messages := (Backend.pushEvict r.messages
            (Backend.mkMessage i.2.1 i.2.2 u.username sid (jsTrim i.1) room)) }
        (lookupA_setA_self _ _ _) (lookupA_setA_self _ _ _) hm
        (fun j hj => hv j (List.mem_cons_of_mem _ hj))
    exact ⟨u', r', h1, h2, h3, h4, h5⟩

theorem pushEvict_of_lt (log : List Backend.Message) (m : Backend.Message)
    (h : log.length + 1 ≤ 1000) : Backend.pushEvict log m = log ++ [m] := by
  have h2 : ¬((log ++ [m]).length > 1000) := by simp; omega
  show (if (log ++ [m]).length > 1000 then sliceLast 500 (log ++ [m]) else log ++ [m]) =
    log ++ [m]
  rw [if_neg h2]

theorem foldl_pushEvict_no_trim :
    ∀ (msgs log : List Backend.Message), log.length + msgs.length ≤ 1000 →
      msgs.foldl Backend.pushEvict log = log ++ msgs := by
  intro msgs
  induction msgs with
  | nil => intro log _; simp
  | cons m t ih =>
    intro log h
    simp only [List.foldl_cons]
    rw [pushEvict_of_lt log m (by simp at h; omega)]
    rw [ih (log ++ [m]) (by simp at h ⊢; omega)]
    simp

theorem foldl_pushEvict_1001 (M : List Backend.Message) (h : M.length = 1001) :
    M.foldl Backend.pushEvict [] = sliceLast 500 M ∧
    (M.foldl Backend.pushEvict []).length = 500 := by
  obtain ⟨b, hb⟩ : ∃ b, M.drop 1000 = [b] := by
    apply List.length_eq_one.mp
    simp [h]
  have hAB : M = M.take 1000 ++ [b] := by
    rw [← hb]
    exact (List.take_append_drop _ _).symm
  have hA : (M.take 1000).length = 1000 := by simp [h]
  rw [hAB, List.foldl_append]
  rw [foldl_pushEvict_no_trim (M.take 1000) [] (by simp [hA])]
  simp only [List.foldl_cons, List.foldl_nil, List.nil_append]
  have hgt : (M.take 1000 ++ [b]).length > 1000 := by simp [hA]
  have hpe : Backend.pushEvict (M.take 1000) b = sliceLast 500 (M.take 1000 ++ [b]) := by
    show (if (M.take 1000 ++ [b]).length > 1000 then sliceLast 500 (M.take 1000 ++ [b])
      else M.take 1000 ++ [b]) = sliceLast 500 (M.take 1000 ++ [b])
    rw [if_pos hgt]
  rw [hpe]
  refine ⟨rfl, ?_⟩
  rw [length_sliceLast]
  simp [hA]

theorem pushEvict_length_le (log : List Backend.Message) (m : Backend.Message)
    (h : log.length ≤ 1000) : (Backend.pushEvict log m).length ≤ 1000 := by
  by_cases hc : (log ++ [m]).length > 1000
  · show (if (log ++ [m]).length > 1000 then sliceLast 500 (log ++ [m])
      else log ++ [m]).length ≤ 1000
    rw [if_pos hc, length_sliceLast]
    exact le_trans (Nat.min_le_left _ _) (by omega)
  · show (if (log ++ [m]).length > 1000 then sliceLast 500 (log ++ [m])
      else log ++ [m]).length ≤ 1000
    rw [if_neg hc]
    simp at hc ⊢
    omega

/-- C1 counterexample: the persistence variant's message handler applies no
cap at all, so a room already holding 1000 messages holds 1001 after one
more message: the log length exceeds the hard cap after the operation
completes. -/
def c1Msgs : List Persist.PMessage :=
  (List.range 1000).map (fun i =>
    { id := i, username := "u", text := "t", timestamp := 0, kindTag := "text" })

def c1Room : Persist.PRoom :=
  { name := "General Chat", password := none, creator := "system",
    users := ["s1"], messages := c1Msgs }

def c1State : Persist.PState :=
  { users := [("s1", { username := "alice", currentRoom := "general" })],
    rooms := [("general", c1Room)] }

theorem C1_counterexample :
    (lookupA "general" (Persist.message c1State 5 0 "s1" "general" "hi").1.rooms).map
        (fun r => r.messages.length) = some 1001 ∧ 1001 > 1000 := by
  have hr : lookupA "general" c1State.rooms = some c1Room := rfl
  have hu : lookupA "s1" c1State.users =
      some { username := "alice", currentRoom := "general" } := rfl
  refine ⟨?_, by omega⟩
  simp only [Persist.message, hr, hu]
  rw [lookupA_setA_self]
  simp [c1Room, c1Msgs]

/-- C1 amended: in the backend variant the claim holds exactly as stated:
one send_message never pushes a room log that was at or below 1000 past
1000; from an empty log, 1001 consecutive successful sends leave the log at
exactly the most recent 500 of the 1001 sent messages, and a 1002nd send
makes the length 501 with no further trim.  The persistence variant's
message handler applies no cap (see the counterexample). -/
theorem C1_eviction_policy :
    (∀ (s : Backend.State) (now : Nat) (rand sid room msg rid : String)
       (r₀ r₁ : Backend.Room),
       lookupA rid s.rooms = some r₀ → r₀.messages.length ≤ 1000 →
       lookupA rid (Backend.send_message s now rand sid room msg).1.rooms = some r₁ →
       r₁.messages.length ≤ 1000) ∧
    (∀ (s : Backend.State) (sid room : String) (u : Backend.User) (r : Backend.Room)
       (inputs : List (String × Nat × String)) (extra : String × Nat × String),
       lookupA sid s.users = some u → lookupA room s.rooms = some r → sid ∈ r.users →
       room ≠ "" → r.messages = [] → inputs.length = 1001 →
       (∀ i ∈ inputs, jsTrim i.1 ≠ "") → jsTrim extra.1 ≠ "" →
       (∃ r', lookupA room (sendSeq s sid room inputs).rooms = some r' ∧
          r'.messages = sliceLast 500 (inputs.map (msgOf u.username sid room)) ∧
          r'.messages.length = 500) ∧
       (∃ r'', lookupA room (sendSeq s sid room (inputs ++ [extra])).rooms = some r'' ∧
          r''.messages.length = 501)) := by
  constructor
  · intro s now rand sid room msg rid r₀ r₁ h₀ hlen h₁
    have base : (Backend.send_message s now rand sid room msg).1 = s →
        r₁.messages.length ≤ 1000 := by
      intro hres
      rw [hres, h₀] at h₁
      cases h₁
      exact hlen
    by_cases hval : room = "" ∨ msg = ""
    · exact base (by simp [Backend.send_message, hval])
    · push_neg at hval
      obtain ⟨hroom, hmsg⟩ := hval
      cases hu : lookupA sid s.users with
      | none => exact base (by simp [Backend.send_message, hroom, hmsg, hu])
      | some u =>
        cases hr : lookupA room s.rooms with
        | none => exact base (by simp [Backend.send_message, hroom, hmsg, hu, hr])
        | some r =>
          by_cases hm : sid ∈ r.users
          · by_cases ht : jsTrim msg = ""
            · exact base (by simp [Backend.send_message, hroom, hmsg, hu, hr, hm, ht])
            · have hstep := send_message_success s now rand sid room msg u r hu hr hm hroom ht
              have hres := congrArg Prod.fst hstep
              rw [hres] at h₁
              by_cases hrr : rid = room
              · subst hrr
                rw [h₀] at hr
                cases hr
                rw [lookupA_setA_self] at h₁
                cases h₁
                exact pushEvict_length_le r₀.messages _ hlen
              · rw [lookupA_setA_ne _ _ hrr, h₀] at h₁
                cases h₁
                exact hlen
          · exact base (by simp [Backend.send_message, hroom, hmsg, hu, hr, hm])
  · intro s sid room u r inputs extra hu hr hm hroom hlog hn hv hextra
    obtain ⟨u', r', h1, h2, h3, h4, h5⟩ :=
      sendSeq_log sid room hroom inputs s u r hu hr hm hv
    have hM : (inputs.map (msgOf u.username sid room)).length = 1001 := by simp [hn]
    have hfold := foldl_pushEvict_1001 (inputs.map (msgOf u.username sid room)) hM
    rw [hlog] at h5
    rw [hfold.1] at h5
    have hlen5 : r'.messages.length = 500 := by
      rw [h5, length_sliceLast, hM]
      exact Nat.min_eq_left (by omega)
    refine ⟨⟨r', h3, h5, hlen5⟩, ?_⟩
    have hseq2 : sendSeq s sid room (inputs ++ [extra]) =
        (Backend.send_message (sendSeq s sid room inputs) extra.2.1 extra.2.2
          sid room extra.1).1 := by
      simp [sendSeq, List.foldl_append]
    have hm' : sid ∈ r'.users := h4 ▸ hm
    have hstep := send_message_success (sendSeq s sid room inputs) extra.2.1 extra.2.2
      sid room extra.1 u' r' h1 h3 hm' hroom hextra
    have hres := congrArg Prod.fst hstep
    rw [hseq2, hres]
    refine ⟨_, lookupA_setA_self _ _ _, ?_⟩
    rw [show Backend.pushEvict r'.messages
        (Backend.mkMessage extra.2.1 extra.2.2 u'.username sid (jsTrim extra.1) room) =
        r'.messages ++ [Backend.mkMessage extra.2.1 extra.2.2 u'.username sid
          (jsTrim extra.1) room] from pushEvict_of_lt _ _ (by omega)]
    simp [hlen5]

/-- Concrete instance of C1 as amended: the cap-preservation part at an
unregistered sender (state unchanged), and the 1001-message scenario with
1001 identical inputs followed by one more. -/
def c1bState : Backend.State :=
  { users := [("s1", { username := "alice", rooms := ["g"], lastActivity := 0 })],
    rooms := [("g", { name := "g", users := ["s1"], messages := [] })] }

theorem C1_witness :
    (({ name := "g", users := ["s1"], messages := [] } : Backend.Room).messages.length ≤
       1000) ∧
    ((∃ r', lookupA "g"
         (sendSeq c1bState "s1" "g" (List.replicate 1001 ("hi", 0, "r"))).rooms = some r' ∧
       r'.messages = sliceLast 500 ((List.replicate 1001 ("hi", 0, "r")).map
         (msgOf "alice" "s1" "g")) ∧
       r'.messages.length = 500) ∧
     (∃ r'', lookupA "g"
         (sendSeq c1bState "s1" "g" (List.replicate 1001 ("hi", 0, "r") ++
           [("bye", 1, "q")])).rooms = some r'' ∧
       r''.messages.length = 501)) :=
  ⟨C1_eviction_policy.1 c1bState 5 "r" "s9" "g" "hi" "g"
     { name := "g", users := ["s1"], messages := [] }
     { name := "g", users := ["s1"], messages := [] }
     (by decide) (by decide) (by decide),
   C1_eviction_policy.2 c1bState "s1" "g"
     { username := "alice", rooms := ["g"], lastActivity := 0 }
     { name := "g", users := ["s1"], messages := [] }
     (List.replicate 1001 ("hi", 0, "r")) ("bye", 1, "q")
     (by decide) (by decide) (by decide) (by decide) (by decide)
     (by rw [List.length_replicate])
     (fun i hi => by rw [List.eq_of_mem_replicate hi]; decide)
     (by decide)⟩

/-! ## C8: the history snapshot delivered on join -/

def c8Msgs : List Persist.PMessage :=
  (List.range 51).map (fun i =>
    { id := i, username := "u", text := "t", timestamp := 0, kindTag := "text" })

def c8State : Persist.PState :=
  { users := [],
    rooms := [("a", { name := "A", password := none, creator := "x",
                      users := [], messages := c8Msgs })] }

/-- C8 counterexample: the persistence variant's join_room delivers
messages.slice(-50), so joining a room holding 51 messages delivers 50 of
them, not the claimed last 100 (which would be the entire 51-message log). -/
theorem C8_counterexample :
    (Persist.join_room Persist.plainBcrypt c8State "s1" "a" "alice" "").2 =
      [.roomJoined "a" "A" (sliceLast 50 c8Msgs), .userJoinedEv "alice" "a",
       .roomUpdate "a" 1 (some false)] ∧
    sliceLast 50 c8Msgs ≠ sliceLast 100 c8Msgs := by
  constructor
  · decide
  · intro h
    have hlen := congrArg List.length h
    rw [length_sliceLast, length_sliceLast] at hlen
    have h51 : c8Msgs.length = 51 := by simp [c8Msgs]
    omega

/-- C8 amended: in the backend variant the claim holds: on every successful
join_room the room_history event delivered to the joining connection
carries the last 100 messages of the room's log, and that is the entire log
whenever the log holds at most 100 messages.  The persistence variant's
room_joined event instead carries the last 50. -/
theorem C8_history_snapshot (s : Backend.State) (now : Nat) (sid roomName : String)
    (u : Backend.User)
    (hu : lookupA sid s.users = some u)
    (hn : jsTrim roomName ≠ "") :
    ∃ cnt,
      (Backend.join_room s now sid roomName).2 =
        [.roomHistory (jsTrim roomName)
           (sliceLast 100 ((lookupA (jsTrim roomName) s.rooms).getD
              { name := jsTrim roomName, users := [], messages := [] }).messages) cnt,
         .userJoined (jsTrim roomName) u.username sid cnt] ∧
      (∀ l : List Backend.Message, l.length ≤ 100 → sliceLast 100 l = l) := by
  refine ⟨(addS sid ((lookupA (jsTrim roomName) s.rooms).getD
      { name := jsTrim roomName, users := [], messages := [] }).users).length, ?_, ?_⟩
  · simp [Backend.join_room, hn, hu]
  · intro l hl
    exact sliceLast_of_le hl

/-- Concrete instance of C8 as amended: joining a backend room holding two
messages delivers both of them. -/
def c8bMsg1 : Backend.Message :=
  { id := "1-a", user := "u", userId := "s2", message := "one", room := "a", serverTime := 1 }

def c8bMsg2 : Backend.Message :=
  { id := "2-b", user := "u", userId := "s2", message := "two", room := "a", serverTime := 2 }

def c8bState : Backend.State :=
  { users := [("s1", { username := "alice", rooms := [], lastActivity := 0 })],
    rooms := [("a", { name := "a", users := [], messages := [c8bMsg1, c8bMsg2] })] }

theorem C8_witness :
    (∃ cnt,
      (Backend.join_room c8bState 3 "s1" "a").2 =
        [.roomHistory (jsTrim "a")
           (sliceLast 100 ((lookupA (jsTrim "a") c8bState.rooms).getD
              { name := jsTrim "a", users := [], messages := [] }).messages) cnt,
         .userJoined (jsTrim "a") "alice" "s1" cnt] ∧
      (∀ l : List Backend.Message, l.length ≤ 100 → sliceLast 100 l = l)) ∧
    sliceLast 100 [c8bMsg1, c8bMsg2] = [c8bMsg1, c8bMsg2] :=
  ⟨C8_history_snapshot c8bState 3 "s1" "a"
      { username := "alice", rooms := [], lastActivity := 0 } (by decide) (by decide),
   by decide⟩

/-! ## C5: message id ordering -/

def c5State : Persist.PState :=
  { users := [("s1", { username := "alice", currentRoom := "general" })],
    rooms := [("general", { name := "General Chat", password := none, creator := "system",
                            users := ["s1"], messages := [] })] }

/-- C5 counterexample: two messages in the same millisecond (now = 5) with
random draws 2/2^53 then 1/2^53 leave the log with a second id strictly
smaller than the first, so a newly appended message is not always assigned
an id greater than every id already in the log. -/
theorem C5_counterexample :
    (lookupA "general"
        ((Persist.message ((Persist.message c5State 5 2 "s1" "general" "first").1)
            5 1 "s1" "general" "second").1).rooms).map
        (fun r => r.messages.map Persist.PMessage.id) =
      some [jsId 5 2, jsId 5 1] ∧
    jsId 5 1 < jsId 5 2 := by
  constructor
  · decide
  · decide

/-- C5 amended: ids are strictly increasing across distinct milliseconds:
when every message already in the log has an id below the current
millisecond (id < now * 2^53), the newly appended message's id exceeds all
of them, and itself stays below the next millisecond whenever the random
draw is in range.  Within one millisecond the random tiebreaker makes ids
distinct with high probability but not ordered. -/
theorem C5_id_monotone (s : Persist.PState) (now k : Nat) (sid rid text : String)
    (room : Persist.PRoom) (user : Persist.PUser)
    (hr : lookupA rid s.rooms = some room)
    (hu : lookupA sid s.users = some user)
    (hpast : ∀ m ∈ room.messages, m.id < now * 2 ^ 53) :
    ∃ r', lookupA rid (Persist.message s now k sid rid text).1.rooms = some r' ∧
      r'.messages = room.messages ++
        [{ id := jsId now k, username := user.username, text := text,
           timestamp := now, kindTag := "text" }] ∧
      (∀ m ∈ room.messages, m.id < jsId now k) ∧
      (k < 2 ^ 53 → jsId now k < (now + 1) * 2 ^ 53) := by
  refine ⟨{ room with messages := room.messages ++
      [{ id := jsId now k, username := user.username, text := text,
         timestamp := now, kindTag := "text" }] }, ?_, rfl, fun m hm => ?_, fun hk => ?_⟩
  · simp only [Persist.message, hr, hu]
    exact lookupA_setA_self _ _ _
  · have := hpast m hm
    simp only [jsId]
    omega
  · have hmul : (now + 1) * 2 ^ 53 = now * 2 ^ 53 + 2 ^ 53 := by ring
    simp only [jsId, hmul]
    omega

/-- Concrete instance of C5 as amended: a message in millisecond 6 lands
above the existing millisecond-5 message. -/
def c5Msg1 : Persist.PMessage :=
  { id := jsId 5 2, username := "alice", text := "first", timestamp := 5, kindTag := "text" }

def c5Room1 : Persist.PRoom :=
  { name := "General Chat", password := none, creator := "system",
    users := ["s1"], messages := [c5Msg1] }

def c5State1 : Persist.PState := (Persist.message c5State 5 2 "s1" "general" "first").1

theorem C5_witness :
    ∃ r', lookupA "general" (Persist.message c5State1 6 1 "s1" "general" "second").1.rooms =
        some r' ∧
      r'.messages = c5Room1.messages ++
        [{ id := jsId 6 1, username := "alice", text := "second",
           timestamp := 6, kindTag := "text" }] ∧
      (∀ m ∈ c5Room1.messages, m.id < jsId 6 1) ∧
      (1 < 2 ^ 53 → jsId 6 1 < (6 + 1) * 2 ^ 53) :=
  C5_id_monotone c5State1 6 1 "s1" "general" "second" c5Room1
    { username := "alice", currentRoom := "general" }
    (by decide) (by decide) (by decide)

/-! ## C9: startup load and recovery -/

/-- A live state at save time: the default rooms with one chat message in
general. -/
def c9Message : Persist.PMessage :=
  { id := 1, username := "alice", text := "hello", timestamp := 0, kindTag := "text" }

def c9Rooms : List (String × Persist.PRoom) :=
  [("general", { name := "General Chat", password := none, creator := "system",
                 users := [], messages := [c9Message] }),
   ("random", { name := "Random Talk", password := none, creator := "system",
                users := [], messages := [] }),
   ("tech", { name := "Tech Talk", password := none, creator := "system",
              users := [], messages := [] })]

/-- C9: the recovery half of the claim holds (a missing or unparsable
document always yields the default rooms plus reinitialized empty
documents, never a fatal error), but the merge half fails: feeding loadData
exactly the two documents saveData writes for c9Rooms, the saved message
for general is present in the messages document yet absent from the loaded
state, because the metadata overlay replaces the merged room object with
one whose messages list saveData emptied. -/
theorem C9_load_merge_bug :
    Persist.loadData none (some (Persist.saveDataRooms c9Rooms)) =
      (Persist.defaultRooms, true) ∧
    Persist.loadData (some (Persist.saveDataMessages c9Rooms)) none =
      (Persist.defaultRooms, true) ∧
    Persist.saveDataMessages c9Rooms =
      [("general", [c9Message]), ("random", []), ("tech", [])] ∧
    (lookupA "general"
        (Persist.loadData (some (Persist.saveDataMessages c9Rooms))
          (some (Persist.saveDataRooms c9Rooms))).1).map Persist.PRoom.messages =
      some [] := by
  refine ⟨rfl, rfl, by decide, by decide⟩

/-! ## C10: re-registration orphans room membership -/

/-- C10: register_user on an already-registered connection replaces the user
record with one whose rooms set is empty while leaving every room's member
set unchanged, and a subsequent disconnect iterates the new empty rooms set:
it removes the connection from no room and emits no user_left. -/
theorem C10_reregister_orphans_membership (s : Backend.State) (now : Nat)
    (sid name : String) (u : Backend.User)
    (_hu : lookupA sid s.users = some u) :
    (∃ u₁, lookupA sid (Backend.register_user s now sid name).1.users = some u₁ ∧
       u₁.rooms = []) ∧
    (Backend.register_user s now sid name).1.rooms = s.rooms ∧
    (Backend.disconnect (Backend.register_user s now sid name).1 sid).1.rooms = s.rooms ∧
    (Backend.disconnect (Backend.register_user s now sid name).1 sid).2 = [] := by
  set u₁ : Backend.User :=
    { username := jsTrim (if name = "" then "User_" ++ jsSlice sid 6 else name),
      rooms := [], lastActivity := now } with hu₁
  have hreg : (Backend.register_user s now sid name).1 =
      { s with users := setA sid u₁ s.users } := by
    simp [Backend.register_user, hu₁]
  refine ⟨⟨_, by rw [hreg]; exact lookupA_setA_self _ _ _, rfl⟩, by rw [hreg], ?_, ?_⟩
  · rw [hreg]
    simp [Backend.disconnect, lookupA_setA_self]
  · rw [hreg]
    simp [Backend.disconnect, lookupA_setA_self]

/-- Concrete instance of C10: after re-registering, disconnecting the socket
leaves the room general with its member list intact and emits nothing. -/
def c10State : Backend.State :=
  { users := [("s1", { username := "alice", rooms := ["general"], lastActivity := 0 })],
    rooms := [("general", { name := "general", users := ["s1"], messages := [] })] }

/-! ## C4: send_message failure modes -/

/-- State used by several concrete instances: alice is registered on socket
s1 and is a member of the existing room general. -/
def c4User : Backend.User :=
  { username := "alice", rooms := ["general"], lastActivity := 0 }

def c4Room : Backend.Room := { name := "general", users := ["s1"], messages := [] }

def c4EmptyRoom : Backend.Room := { name := "general", users := [], messages := [] }

def c4State : Backend.State :=
  { users := [("s1", c4User)], rooms := [("general", c4Room)] }

def c4State2 : Backend.State :=
  { users := [("s1", c4User)], rooms := [("general", c4EmptyRoom)] }

/-- C4 counterexample: a message whose text is the empty string is empty
after trimming, yet it is not silently dropped: the handler's argument
validation answers it with an error event. -/
theorem C4_counterexample :
    jsTrim "" = "" ∧
    Backend.send_message c4State 5 "r" "s1" "general" "" =
      (c4State, [.errorMsg "Room and valid message are required"]) := by
  constructor
  · rfl
  · decide

/-- C4 amended: for a non-empty room id and non-empty text, send_message
fails with Please register first, Room does not exist, You are not in this
room, checked in that priority order, each leaving the state unchanged; and
a text that is non-empty but empty after trimming is silently dropped: no
event at all and the state (hence the room's log) unchanged.  An empty room
id or empty text is instead rejected up front by argument validation. -/
theorem C4_send_message_errors (s : Backend.State) (now : Nat)
    (rand sid room msg : String)
    (hroom : room ≠ "") (hmsg : msg ≠ "") :
    (lookupA sid s.users = none →
       Backend.send_message s now rand sid room msg =
         (s, [.errorMsg "Please register first"])) ∧
    (∀ u, lookupA sid s.users = some u →
       (lookupA room s.rooms = none →
          Backend.send_message s now rand sid room msg =
            (s, [.errorMsg "Room does not exist"])) ∧
       (∀ r, lookupA room s.rooms = some r →
          (sid ∉ r.users →
             Backend.send_message s now rand sid room msg =
               (s, [.errorMsg "You are not in this room"])) ∧
          (sid ∈ r.users → jsTrim msg = "" →
             Backend.send_message s now rand sid room msg = (s, [])))) := by
  refine ⟨fun hu => ?_, fun u hu => ⟨fun hr => ?_, fun r hr => ⟨fun hm => ?_, fun hm ht => ?_⟩⟩⟩
  · simp [Backend.send_message, hroom, hmsg, hu]
  · simp [Backend.send_message, hroom, hmsg, hu, hr]
  · simp [Backend.send_message, hroom, hmsg, hu, hr, hm]
  · simp [Backend.send_message, hroom, hmsg, hu, hr, hm, ht]

/-- Concrete instances of the four cases of C4 as amended. -/
theorem C4_witness :
    Backend.send_message c4State 5 "r" "s9" "general" "hello" =
      (c4State, [.errorMsg "Please register first"]) ∧
    Backend.send_message c4State 5 "r" "s1" "nowhere" "hello" =
      (c4State, [.errorMsg "Room does not exist"]) ∧
    Backend.send_message c4State2 5 "r" "s1" "general" "hello" =
      (c4State2, [.errorMsg "You are not in this room"]) ∧
    Backend.send_message c4State 5 "r" "s1" "general" "   " = (c4State, []) :=
  ⟨(C4_send_message_errors c4State 5 "r" "s9" "general" "hello"
      (by decide) (by decide)).1 (by decide),
   ((C4_send_message_errors c4State 5 "r" "s1" "nowhere" "hello"
      (by decide) (by decide)).2 c4User (by decide)).1 (by decide),
   (((C4_send_message_errors c4State2 5 "r" "s1" "general" "hello"
      (by decide) (by decide)).2 c4User (by decide)).2 c4EmptyRoom (by decide)).1 (by decide),
   (((C4_send_message_errors c4State 5 "r" "s1" "general" "   "
      (by decide) (by decide)).2 c4User (by decide)).2 c4Room (by decide)).2
      (by decide) (by decide)⟩

/-! ## C6: multi-room membership versus the single-active-room variant -/

def c6State : Persist.PState :=
  { users := [("s1", { username := "alice", currentRoom := "a" })],
    rooms := [("a", { name := "A", password := none, creator := "x",
                      users := ["s1"], messages := [] }),
              ("b", { name := "B", password := none, creator := "x",
                      users := [], messages := [] })] }

/-- C6 counterexample: in the persistence variant, a successful join_room on
room b removes the connection from room a it already belonged to, so the
connection is not a member of both afterwards. -/
theorem C6_counterexample :
    (lookupA "a" (Persist.join_room Persist.plainBcrypt c6State "s1" "b" "alice" "").1.rooms).map
        Persist.PRoom.users = some [] ∧
    (lookupA "b" (Persist.join_room Persist.plainBcrypt c6State "s1" "b" "alice" "").1.rooms).map
        Persist.PRoom.users = some ["s1"] := by
  constructor
  · decide
  · decide

/-- C6 amended: in the multi-room backend variant the claim holds: a
successful join_room adds the target room without removing the connection
from any other room, so membership in previously joined rooms is kept and
the user's rooms set grows to include the target. -/
theorem C6_multiroom_join (s : Backend.State) (now : Nat) (sid roomName : String)
    (u : Backend.User)
    (hu : lookupA sid s.users = some u)
    (hn : jsTrim roomName ≠ "") :
    (∀ rid, rid ≠ jsTrim roomName →
       lookupA rid (Backend.join_room s now sid roomName).1.rooms = lookupA rid s.rooms) ∧
    (∃ r, lookupA (jsTrim roomName) (Backend.join_room s now sid roomName).1.rooms = some r ∧
       sid ∈ r.users) ∧
    (∃ u', lookupA sid (Backend.join_room s now sid roomName).1.users = some u' ∧
       u'.rooms = addS (jsTrim roomName) u.rooms ∧ ∀ rid ∈ u.rooms, rid ∈ u'.rooms) := by
  set target := jsTrim roomName with htarget
  set roomData : Backend.Room :=
    (lookupA target s.rooms).getD { name := target, users := [], messages := [] } with hrd
  have hjoin : (Backend.join_room s now sid roomName).1 =
      { users := setA sid { u with rooms := addS target u.rooms, lastActivity := now } s.users,
        rooms := setA target { roomData with users := addS sid roomData.users } s.rooms } := by
    simp [Backend.join_room, hn, hu, ← htarget, ← hrd]
  refine ⟨fun rid hrid => ?_,
    ⟨{ roomData with users := addS sid roomData.users }, ?_, mem_addS_self sid roomData.users⟩,
    ⟨{ u with rooms := addS target u.rooms, lastActivity := now }, ?_, rfl, ?_⟩⟩
  · rw [hjoin]
    exact lookupA_setA_ne _ _ hrid
  · rw [hjoin]
    exact lookupA_setA_self _ _ _
  · rw [hjoin]
    exact lookupA_setA_self _ _ _
  · intro rid hmem
    exact mem_addS_of_mem target hmem

/-- Concrete instance of C6 as amended: s1, already in room a, joins room b
in the backend variant and stays a member of a. -/
def c6bState : Backend.State :=
  { users := [("s1", { username := "alice", rooms := ["a"], lastActivity := 0 })],
    rooms := [("a", { name := "a", users := ["s1"], messages := [] })] }

theorem C6_witness :
    (∀ rid, rid ≠ jsTrim "b" →
       lookupA rid (Backend.join_room c6bState 3 "s1" "b").1.rooms =
         lookupA rid c6bState.rooms) ∧
    (∃ r, lookupA (jsTrim "b") (Backend.join_room c6bState 3 "s1" "b").1.rooms = some r ∧
       "s1" ∈ r.users) ∧
    (∃ u', lookupA "s1" (Backend.join_room c6bState 3 "s1" "b").1.users = some u' ∧
       u'.rooms = addS (jsTrim "b") ["a"] ∧ ∀ rid ∈ ["a"], rid ∈ u'.rooms) :=
  C6_multiroom_join c6bState 3 "s1" "b"
    { username := "alice", rooms := ["a"], lastActivity := 0 } (by decide) (by decide)

theorem C10_witness :
    (∃ u₁, lookupA "s1" (Backend.register_user c10State 7 "s1" "alice2").1.users = some u₁ ∧
       u₁.rooms = []) ∧
    (Backend.register_user c10State 7 "s1" "alice2").1.rooms = c10State.rooms ∧
    (Backend.disconnect (Backend.register_user c10State 7 "s1" "alice2").1 "s1").1.rooms =
      c10State.rooms ∧
    (Backend.disconnect (Backend.register_user c10State 7 "s1" "alice2").1 "s1").2 = [] :=
  C10_reregister_orphans_membership c10State 7 "s1" "alice2"
    { username := "alice", rooms := ["general"], lastActivity := 0 } (by decide)

end ChatsApp
